import Mathlib

/-!
Verification development for the cheesy-arena device fleet controller.

This file gives a shallow embedding, in Lean 4, of the parts of the Go
source that the specification's claims are about:

* the per-device health monitors (`updateMonitoring`) of the Netgear and
  TP-Link switch drivers (`network/netgear_switch.go`,
  `network/tplinkswitch.go`);
* the reboot operations of both drivers and their error-classification
  heuristics (`postRebootConsiderRebooting`, `rebootWithLogin`,
  `performReboot`);
* the Netgear login-credential computation (`mergeStrings`, `md5hex`);
* the station-stop ingestion handler (`web/station_stops.go`);
* the provisioning handler's single-flight admission, target resolution,
  mask parsing (`parseMaskToCIDR`) and subnet enumeration
  (`scanSubnetForSSH`) from `web/rpi_setup.go`.

Machine-word arithmetic is modelled with `Nat` plus explicit reduction
modulo `2 ^ 32`.  Go `time.Time` values are modelled as `Option Nat`
(seconds; `none` is the zero value, mirroring `Time.IsZero`).  Network
effects (probe results, HTTP outcomes) are inputs to the embedded
functions.
-/

namespace CheesyArena

/-! ## Health-monitor state machines

`network/netgear_switch.go` constants: `needOK = 3`, `needFail = 5`,
`defaultGrace = 30 * time.Second`. -/

def needOK : Nat := 3

def needFail : Nat := 5

def defaultGrace : Nat := 30

/-- The monitoring-relevant fields of `NetgearPlusSwitch`: the public
`Status` string, `lastRebootAt` (`none` models the zero `time.Time`),
`rebootGrace`, and the two hysteresis counters. -/
structure NetgearState where
  status : String
  lastRebootAt : Option Nat
  rebootGrace : Nat
  consecutiveOK : Nat
  consecutiveFail : Nat
  deriving DecidableEq, Repr

/-- The Go condition `!s.lastRebootAt.IsZero() && time.Since(s.lastRebootAt) < s.rebootGrace`. -/
def ngInGrace (s : NetgearState) (now : Nat) : Bool :=
  match s.lastRebootAt with
  | some t => now - t < s.rebootGrace
  | none => false

/-- `NetgearPlusSwitch.updateMonitoring`, as a function of the probe
result (`reachable`) and the current time.  Mirrors
`netgear_switch.go` lines 120-154. -/
def ngUpdateMonitoring (s : NetgearState) (reachable : Bool) (now : Nat) : NetgearState :=
  if reachable then
    let s1 := { s with consecutiveOK := s.consecutiveOK + 1, consecutiveFail := 0 }
    if needOK ≤ s1.consecutiveOK ∧ s1.status ≠ "ACTIVE" then
      { s1 with status := "ACTIVE" }
    else
      s1
  else
    let s1 := { s with consecutiveFail := s.consecutiveFail + 1, consecutiveOK := 0 }
    if ngInGrace s1 now then
      { s1 with status := "CONFIGURING" }
    else if needFail ≤ s1.consecutiveFail ∧ s1.status ≠ "ERROR" then
      { s1 with status := "ERROR" }
    else
      s1

/-- Folding the Netgear monitor over a sequence of (probe result, time)
samples, as produced by the polling loop in `Run`. -/
def ngRun (s : NetgearState) : List (Bool × Nat) → NetgearState
  | [] => s
  | (b, t) :: rest => ngRun (ngUpdateMonitoring s b t) rest

/-- The state created by `NewNetgearPlusSwitch`: status `"UNKNOWN"`,
zero `lastRebootAt`, grace `defaultGrace`, zero counters. -/
def ngInit : NetgearState :=
  { status := "UNKNOWN", lastRebootAt := none, rebootGrace := defaultGrace,
    consecutiveOK := 0, consecutiveFail := 0 }

/-- The monitoring-relevant fields of `TPLinkSwitch`.  This driver keeps
no hysteresis counters. -/
structure TPLinkState where
  status : String
  lastRebootAt : Option Nat
  rebootGrace : Nat
  deriving DecidableEq, Repr

/-- The Go condition `!TPLS.lastRebootAt.IsZero() && time.Since(TPLS.lastRebootAt) < TPLS.rebootGrace`. -/
def tpInGrace (s : TPLinkState) (now : Nat) : Bool :=
  match s.lastRebootAt with
  | some t => now - t < s.rebootGrace
  | none => false

/-- `TPLinkSwitch.updateMonitoring` (`tplinkswitch.go` lines 89-117):
reachable sets `"ACTIVE"` immediately; unreachable inside the grace
window sets `"CONFIGURING"`; otherwise `"ERROR"`. -/
def tpUpdateMonitoring (s : TPLinkState) (reachable : Bool) (now : Nat) : TPLinkState :=
  if reachable then
    { s with status := "ACTIVE" }
  else if tpInGrace s now then
    { s with status := "CONFIGURING" }
  else
    { s with status := "ERROR" }

/-- Folding the TP-Link monitor over a sample sequence. -/
def tpRun (s : TPLinkState) : List (Bool × Nat) → TPLinkState
  | [] => s
  | (b, t) :: rest => tpRun (tpUpdateMonitoring s b t) rest

/-- The state created by `NewTPLinkSwitch`: status `"UNKNOWN"`, zero
`lastRebootAt`, grace 40 seconds. -/
def tpInit : TPLinkState :=
  { status := "UNKNOWN", lastRebootAt := none, rebootGrace := 40 }

/-! ## Trace predicates for the hysteresis claims -/

/-- Generic form of the drivers' grace-window condition, as a function of
the (constant) `lastRebootAt` and grace fields. -/
def inGraceAt (last : Option Nat) (grace now : Nat) : Bool :=
  match last with
  | some t => now - t < grace
  | none => false

/-- The sample sequence contains `k` consecutive samples whose probe
result is `v`. -/
def hasRun (k : Nat) (v : Bool) (l : List (Bool × Nat)) : Prop :=
  ∃ l1 w l2, l = l1 ++ w ++ l2 ∧ w.length = k ∧ ∀ x ∈ w, x.1 = v

/-- The sample sequence contains `needFail` consecutive failures whose
last member is taken outside the grace window determined by `last` and
`grace`. -/
def errWitness (last : Option Nat) (grace : Nat) (l : List (Bool × Nat)) : Prop :=
  ∃ l1 w t l2, l = l1 ++ w ++ [(false, t)] ++ l2 ∧ w.length = needFail - 1 ∧
    (∀ x ∈ w, x.1 = false) ∧ inGraceAt last grace t = false

/-- Length of the leading block of samples whose probe result is `v`. -/
def leadingCount (v : Bool) : List (Bool × Nat) → Nat
  | [] => 0
  | x :: rest => if x.1 = v then leadingCount v rest + 1 else 0

/-- Length of the trailing block of samples whose probe result is `v`. -/
def trailingCount (v : Bool) (l : List (Bool × Nat)) : Nat :=
  leadingCount v l.reverse

/-- Invariant carried through a Netgear monitor run: the device's reboot
bookkeeping is constant, the hysteresis counters are bounded by the
trailing streak lengths of the consumed sample prefix, and a published
`"ACTIVE"` / `"ERROR"` status is justified by the prefix. -/
def ngTraceInv (last : Option Nat) (grace : Nat) (p : List (Bool × Nat))
    (s : NetgearState) : Prop :=
  s.lastRebootAt = last ∧ s.rebootGrace = grace ∧
  s.consecutiveOK ≤ trailingCount true p ∧
  s.consecutiveFail ≤ trailingCount false p ∧
  (s.status = "ACTIVE" → hasRun needOK true p) ∧
  (s.status = "ERROR" → errWitness last grace p)

/-! ## Reboot operations and transport-error classification -/

/-- A Go `error` as the drivers inspect it: the message string returned
by `Error()` and whether `errors.Is(err, io.EOF)` holds. -/
structure GoError where
  msg : String
  isEOF : Bool
  deriving DecidableEq, Repr

def strContainsAux (needle : List Char) : List Char → Bool
  | [] => needle.isEmpty
  | c :: rest => needle.isPrefixOf (c :: rest) || strContainsAux needle rest

/-- Go `strings.ToLower` (over the rune list; the messages inspected are
ASCII). -/
def strToLower (s : String) : String := String.mk (s.data.map Char.toLower)

/-- Go `strings.Contains`. -/
def strContains (haystack needle : String) : Bool :=
  strContainsAux needle.data haystack.data

/-- `looksLikeConnectionDrop` (netgear_switch.go lines 450-456). -/
def looksLikeConnectionDrop (e : GoError) : Bool :=
  let msg := strToLower e.msg
  strContains msg "connection reset" || strContains msg "connection aborted" ||
    strContains msg "broken pipe" || strContains msg "use of closed network connection"

/-- `looksLikeTimeout` (netgear_switch.go lines 458-463). -/
def looksLikeTimeout (e : GoError) : Bool :=
  let msg := strToLower e.msg
  strContains msg "timeout" || strContains msg "deadline exceeded" || e.isEOF

/-- Outcome of an HTTP round trip, as the reboot code observes it. -/
inductive HttpOutcome where
  | transportErr (e : GoError)
  | response (statusCode : Nat)
  deriving DecidableEq, Repr

/-- `NetgearPlusSwitch.postRebootConsiderRebooting` (netgear_switch.go
lines 355-393), as a function of the POST outcome and of the result the
follow-up `pingICMP` probe would report.  `none` models a nil error
(success). -/
def postRebootConsiderRebooting (outcome : HttpOutcome) (pingAfter : Bool) : Option GoError :=
  match outcome with
  | .transportErr e =>
    if looksLikeConnectionDrop e || looksLikeTimeout e then none else some e
  | .response st =>
    if st / 100 = 2 || st / 100 = 3 then none
    else if !pingAfter then none
    else some { msg := "reboot failed: " ++ toString st, isEOF := false }

/-- The reboot-classification tail of `NetgearPlusSwitch.rebootWithLogin`
(netgear_switch.go lines 217-224): an error from
`postRebootConsiderRebooting` is still counted as success when the device
no longer answers a ping or when the error looks like a connection drop
or timeout. -/
def ngRebootClassify (outcome : HttpOutcome) (pingInPost pingInCatch : Bool) : Option GoError :=
  match postRebootConsiderRebooting outcome pingInPost with
  | none => none
  | some e =>
    if !pingInCatch || looksLikeConnectionDrop e || looksLikeTimeout e then none else some e

/-- `performReboot` for the TP-Link driver (tplinkswitch.go lines
189-211): a transport error is returned as a failure unconditionally;
a response status other than 200 fails unless it is a 3xx redirect. -/
def performReboot (outcome : HttpOutcome) : Option GoError :=
  match outcome with
  | .transportErr e => some e
  | .response st =>
    if st ≠ 200 ∧ (st < 300 ∨ st > 399) then some { msg := "reboot failed", isEOF := false }
    else none

/-- Outcome of the preparatory phases of `NetgearPlusSwitch.Reboot`. -/
inductive NgRebootAttempt where
  | unreachableBefore
  | loginOrRebootErr
  | ok
  deriving DecidableEq, Repr

/-- `NetgearPlusSwitch.Reboot` (netgear_switch.go lines 95-111) as a
state transformer over the monitoring fields, given the outcome of
`waitUntilReachable` / `rebootWithLogin` and the current time. -/
def ngReboot (s : NetgearState) (attempt : NgRebootAttempt) (now : Nat) : NetgearState :=
  match attempt with
  | .unreachableBefore => { s with status := "ERROR" }
  | .loginOrRebootErr => { s with status := "ERROR" }
  | .ok => { s with lastRebootAt := some now, status := "CONFIGURING" }

/-- `TPLinkSwitch.Reboot` (tplinkswitch.go lines 79-86): a successful
`rebootWithLogin` stamps `lastRebootAt`; the `Status` field is not
written on either path. -/
def tpReboot (s : TPLinkState) (success : Bool) (now : Nat) : TPLinkState :=
  if success then { s with lastRebootAt := some now } else s

/-! ## The Netgear login credential: `mergeStrings` and `md5hex`

`rebootWithLogin` (netgear_switch.go line 203) computes
`pwHex := md5hex(mergeStrings(s.plainPassword, randStr))` and POSTs it as
the `password` form field. -/

/-- `mergeStrings` (netgear_switch.go lines 424-439): per loop iteration
one rune of `a` (if any remain) and then one rune of `b` (if any remain)
are appended. -/
def mergeRunes : List Char → List Char → List Char
  | [], b => b
  | a :: as, [] => a :: mergeRunes as []
  | a :: as, b :: bs => a :: b :: mergeRunes as bs

def mergeStrings (a b : String) : String :=
  String.mk (mergeRunes a.data b.data)

/-- Merge as the spec words it: alternate one character of the password
with one character of the nonce, then append the remainder of the longer
string. -/
def specInterleave (a b : List Char) : List Char :=
  ((a.zip b).flatMap fun p => [p.1, p.2]) ++ a.drop b.length ++ b.drop a.length

/-! ### MD5 (the `crypto/md5` primitive behind `md5hex`)

Word arithmetic is `Nat` reduced modulo `2 ^ 32`; byte order is
little-endian as in RFC 1321. -/

def w32 : Nat := 2 ^ 32

def add32 (a b : Nat) : Nat := (a + b) % w32

def not32 (a : Nat) : Nat := a ^^^ (w32 - 1)

def rotl32 (x n : Nat) : Nat := ((x <<< n) % w32) ||| (x >>> (32 - n))

def md5K : List Nat :=
  [0xd76aa478, 0xe8c7b756, 0x242070db, 0xc1bdceee, 0xf57c0faf, 0x4787c62a, 0xa8304613,
   0xfd469501, 0x698098d8, 0x8b44f7af, 0xffff5bb1, 0x895cd7be, 0x6b901122, 0xfd987193,
   0xa679438e, 0x49b40821, 0xf61e2562, 0xc040b340, 0x265e5a51, 0xe9b6c7aa, 0xd62f105d,
   0x02441453, 0xd8a1e681, 0xe7d3fbc8, 0x21e1cde6, 0xc33707d6, 0xf4d50d87, 0x455a14ed,
   0xa9e3e905, 0xfcefa3f8, 0x676f02d9, 0x8d2a4c8a, 0xfffa3942, 0x8771f681, 0x6d9d6122,
   0xfde5380c, 0xa4beea44, 0x4bdecfa9, 0xf6bb4b60, 0xbebfbc70, 0x289b7ec6, 0xeaa127fa,
   0xd4ef3085, 0x04881d05, 0xd9d4d039, 0xe6db99e5, 0x1fa27cf8, 0xc4ac5665, 0xf4292244,
   0x432aff97, 0xab9423a7, 0xfc93a039, 0x655b59c3, 0x8f0ccc92, 0xffeff47d, 0x85845dd1,
   0x6fa87e4f, 0xfe2ce6e0, 0xa3014314, 0x4e0811a1, 0xf7537e82, 0xbd3af235, 0x2ad7d2bb,
   0xeb86d391]

def md5S : List Nat :=
  [7, 12, 17, 22, 7, 12, 17, 22, 7, 12, 17, 22, 7, 12, 17, 22,
   5, 9, 14, 20, 5, 9, 14, 20, 5, 9, 14, 20, 5, 9, 14, 20,
   4, 11, 16, 23, 4, 11, 16, 23, 4, 11, 16, 23, 4, 11, 16, 23,
   6, 10, 15, 21, 6, 10, 15, 21, 6, 10, 15, 21, 6, 10, 15, 21]

structure MD5State where
  a : Nat
  b : Nat
  c : Nat
  d : Nat
  deriving DecidableEq, Repr

def md5F (i b c d : Nat) : Nat :=
  if i < 16 then (b &&& c) ||| (not32 b &&& d)
  else if i < 32 then (d &&& b) ||| (not32 d &&& c)
  else if i < 48 then b ^^^ c ^^^ d
  else c ^^^ (b ||| not32 d)

def md5G (i : Nat) : Nat :=
  if i < 16 then i
  else if i < 32 then (5 * i + 1) % 16
  else if i < 48 then (3 * i + 5) % 16
  else (7 * i) % 16

def md5Round (M : List Nat) (st : MD5State) (i : Nat) : MD5State :=
  let f := md5F i st.b st.c st.d
  let tmp := add32 (add32 (add32 st.a f) (md5K.getD i 0)) (M.getD (md5G i) 0)
  { a := st.d, d := st.c, c := st.b, b := add32 st.b (rotl32 tmp (md5S.getD i 0)) }

def md5ProcessBlock (st : MD5State) (M : List Nat) : MD5State :=
  let r := (List.range 64).foldl (md5Round M) st
  { a := add32 st.a r.a, b := add32 st.b r.b, c := add32 st.c r.c, d := add32 st.d r.d }

def le64 (n : Nat) : List Nat := (List.range 8).map fun i => (n >>> (8 * i)) % 256

def le32 (n : Nat) : List Nat := (List.range 4).map fun i => (n >>> (8 * i)) % 256

def md5Pad (msg : List Nat) : List Nat :=
  msg ++ [0x80] ++ List.replicate ((119 - msg.length % 64) % 64) 0 ++ le64 (8 * msg.length)

def bytesToWords : List Nat → List Nat
  | b0 :: b1 :: b2 :: b3 :: rest =>
    (b0 + 256 * b1 + 65536 * b2 + 16777216 * b3) :: bytesToWords rest
  | _ => []

def md5BlocksAux : Nat → MD5State → List Nat → MD5State
  | _, st, [] => st
  | 0, st, _ :: _ => st
  | fuel + 1, st, b :: rest =>
    md5BlocksAux fuel (md5ProcessBlock st (bytesToWords ((b :: rest).take 64)))
      ((b :: rest).drop 64)

def md5Blocks (st : MD5State) (bytes : List Nat) : MD5State :=
  md5BlocksAux bytes.length st bytes

def md5InitState : MD5State := ⟨0x67452301, 0xefcdab89, 0x98badcfe, 0x10325476⟩

def md5Digest (msg : List Nat) : List Nat :=
  let st := md5Blocks md5InitState (md5Pad msg)
  le32 st.a ++ le32 st.b ++ le32 st.c ++ le32 st.d

def hexDigit (n : Nat) : Char :=
  if n < 10 then Char.ofNat (48 + n) else Char.ofNat (87 + n)

def hexEncode (bytes : List Nat) : String :=
  String.mk (bytes.flatMap fun b => [hexDigit (b / 16), hexDigit (b % 16)])

/-- UTF-8 encoding of one rune, matching Go's `[]byte(string)` conversion. -/
def utf8Bytes (c : Char) : List Nat :=
  let n := c.toNat
  if n < 0x80 then [n]
  else if n < 0x800 then [0xc0 ||| (n >>> 6), 0x80 ||| (n &&& 0x3f)]
  else if n < 0x10000 then
    [0xe0 ||| (n >>> 12), 0x80 ||| ((n >>> 6) &&& 0x3f), 0x80 ||| (n &&& 0x3f)]
  else
    [0xf0 ||| (n >>> 18), 0x80 ||| ((n >>> 12) &&& 0x3f), 0x80 ||| ((n >>> 6) &&& 0x3f),
     0x80 ||| (n &&& 0x3f)]

def stringUTF8 (s : String) : List Nat := s.data.flatMap utf8Bytes

/-- `md5hex` (netgear_switch.go lines 441-444). -/
def md5hex (v : String) : String := hexEncode (md5Digest (stringUTF8 v))

/-- The challenge-response credential `rebootWithLogin` POSTs
(netgear_switch.go line 203). -/
def loginCredential (plainPassword randStr : String) : String :=
  md5hex (mergeStrings plainPassword randStr)

/-! ## String helpers shared by the web handlers -/

/-- Go `strings.TrimSpace` (over the rune list). -/
def strTrim (s : String) : String :=
  String.mk (((s.data.dropWhile Char.isWhitespace).reverse.dropWhile Char.isWhitespace).reverse)

/-- Go `strings.ToUpper` (the inputs here are ASCII). -/
def strToUpper (s : String) : String := String.mk (s.data.map Char.toUpper)

/-- Go `strings.HasSuffix`. -/
def strEndsWith (s suffix : String) : Bool := suffix.data.isSuffixOf s.data

/-! ## Station-stop ingestion (web/station_stops.go) -/

/-- The decoded JSON body of a station-stop report. -/
structure StationStopRequest where
  eStop : Bool
  aStop : Bool
  secret : String
  deriving DecidableEq, Repr

/-- The event-settings fields the handler reads. -/
structure EventSettings where
  useStationRpiStops : Bool
  stationRpiSecret : String
  deriving DecidableEq, Repr

/-- What the handler writes back. -/
inductive StopsOutcome where
  | httpError (code : Nat)
  | successJson
  deriving DecidableEq, Repr

/-- The observable effect of one handler invocation: the HTTP response
and the arguments passed to `UpdateRemoteStops`, if it was reached. -/
structure StopsResult where
  outcome : StopsOutcome
  updateCalled : Option (String × Bool × Bool)
  deriving DecidableEq, Repr

/-- The tail of `stationStopsApiHandler` after the secret checks
(station_stops.go lines 40-57): upper-case the station id from the URL
path and call `UpdateRemoteStops` — modelled by the `updateErr` oracle,
since `Arena` lives outside the sources under verification — answering
400 on its error and the success JSON otherwise. -/
def stationStopsUpdatePhase (req : StationStopRequest) (stationIdRaw : String)
    (updateErr : String → Bool → Bool → Option String) : StopsResult :=
  let station := strToUpper stationIdRaw
  match updateErr station req.eStop req.aStop with
  | some _ => { outcome := .httpError 400, updateCalled := some (station, req.eStop, req.aStop) }
  | none => { outcome := .successJson, updateCalled := some (station, req.eStop, req.aStop) }

/-- `Web.stationStopsApiHandler` (station_stops.go lines 16-58).
`settings = none` models `web.arena.EventSettings == nil`; `body` is the
result of decoding the JSON body (`none` = malformed). -/
def stationStopsApiHandler (settings : Option EventSettings)
    (body : Option StationStopRequest) (stationIdRaw : String)
    (updateErr : String → Bool → Bool → Option String) : StopsResult :=
  match settings with
  | none => { outcome := .httpError 503, updateCalled := none }
  | some es =>
    if !es.useStationRpiStops then { outcome := .httpError 503, updateCalled := none }
    else
      match body with
      | none => { outcome := .httpError 400, updateCalled := none }
      | some req =>
        let secret := strTrim req.secret
        if es.stationRpiSecret ≠ "" then
          if secret = "" then { outcome := .httpError 403, updateCalled := none }
          else if secret ≠ es.stationRpiSecret then
            { outcome := .httpError 403, updateCalled := none }
          else stationStopsUpdatePhase req stationIdRaw updateErr
        else stationStopsUpdatePhase req stationIdRaw updateErr

/-! ## Provisioning (web/rpi_setup.go): mask parsing, scanning, jobs -/

/-- Decimal digit runs accepted by `strconv.Atoi`. -/
def parseDecimal? (cs : List Char) : Option Nat :=
  if cs ≠ [] ∧ cs.all fun c => decide ('0' ≤ c) && decide (c ≤ '9') then
    some (cs.foldl (fun acc c => acc * 10 + (c.toNat - 48)) 0)
  else none

/-- Go `strconv.Atoi` on a 64-bit platform: optional sign, decimal
digits, 64-bit range (out-of-range input is an error). -/
def atoi? (s : String) : Option Int :=
  match s.data with
  | '-' :: rest => (parseDecimal? rest).bind fun n =>
      if n ≤ 2 ^ 63 then some (-(n : Int)) else none
  | '+' :: rest => (parseDecimal? rest).bind fun n =>
      if n ≤ 2 ^ 63 - 1 then some (n : Int) else none
  | cs => (parseDecimal? cs).bind fun n =>
      if n ≤ 2 ^ 63 - 1 then some (n : Int) else none

/-- One dotted-quad field as `net.ParseIP` accepts it: one to three
decimal digits, value at most 255, no leading zero (Go 1.17 and later). -/
def parseIPv4Field? (cs : List Char) : Option Nat :=
  if cs = [] then none
  else if ¬ (cs.all fun c => decide ('0' ≤ c) && decide (c ≤ '9')) then none
  else if 1 < cs.length ∧ cs.head? = some '0' then none
  else if 3 < cs.length then none
  else
    let n := cs.foldl (fun acc c => acc * 10 + (c.toNat - 48)) 0
    if n ≤ 255 then some n else none

def splitOnChar (sep : Char) : List Char → List (List Char)
  | [] => [[]]
  | c :: rest =>
    match splitOnChar sep rest with
    | [] => if c = sep then [[], []] else [[c]]
    | g :: gs => if c = sep then [] :: g :: gs else (c :: g) :: gs

def parseFields? : List (List Char) → Option (List Nat)
  | [] => some []
  | f :: rest =>
    match parseIPv4Field? f, parseFields? rest with
    | some v, some vs => some (v :: vs)
    | _, _ => none

/-- `net.ParseIP` restricted to the dotted-quad IPv4 syntax, composed
with `To4()`: yields the four mask bytes.  (The IPv6 textual forms that
`ParseIP` also accepts are not dotted masks and are out of scope of the
claims about this function.) -/
def parseIP4? (s : String) : Option (List Nat) :=
  match parseFields? (splitOnChar '.' s.data) with
  | some fields => if fields.length = 4 then some fields else none
  | none => none

/-- The bit-scanning loop of `parseMaskToCIDR` over one mask byte
(rpi_setup.go lines 302-311), with `i` running down from 7: count one
bits; at the first zero bit, error if any lower bit of the byte is set,
else stop counting this byte — Go's `break` leaves only this inner
loop. -/
def scanByte (b : Nat) : List Nat → Except String Nat
  | [] => .ok 0
  | i :: rest =>
    if (b >>> i) &&& 1 = 1 then
      (scanByte b rest).map (· + 1)
    else if b &&& ((1 <<< i) - 1) ≠ 0 then
      .error "non-contiguous netmask"
    else
      .ok 0

def byteOnes? (b : Nat) : Except String Nat := scanByte b [7, 6, 5, 4, 3, 2, 1, 0]

/-- The outer byte loop of `parseMaskToCIDR` (lines 300-312): ones keep
accumulating across the remaining bytes after an inner `break`. -/
def maskOnes? : List Nat → Except String Nat
  | [] => .ok 0
  | b :: rest =>
    match byteOnes? b with
    | .error e => .error e
    | .ok o =>
      match maskOnes? rest with
      | .error e => .error e
      | .ok os => .ok (o + os)

/-- `parseMaskToCIDR` (rpi_setup.go lines 281-314).  The two Go nil
checks (`ParseIP` nil and `To4` nil) collapse into the single dotted-quad
parser here. -/
def parseMaskToCIDR (mask : String) : Except String Nat :=
  let m := strTrim mask
  if m = "" then .error "empty"
  else
    match atoi? m with
    | some n =>
      if n < 0 ∨ 32 < n then .error "CIDR out of range"
      else .ok n.toNat
    | none =>
      match parseIP4? m with
      | none => .error "not a valid IPv4 dotted mask"
      | some bytes => maskOnes? bytes

/-- The address list enumerated by the loop in `scanSubnetForSSH`
(rpi_setup.go lines 336-340) for the network `base/prefixLen` parsed by
`net.ParseCIDR`: starting from the masked network address, increment
while still inside the network — for prefix lengths of at least 1 this
yields exactly the `2 ^ (32 - prefixLen)` network addresses in order
(IPv4 addresses as `Nat`). -/
def enumerateCidr (base prefixLen : Nat) : List Nat :=
  let size := 2 ^ (32 - prefixLen)
  let net := base - base % size
  (List.range size).map (net + ·)

/-- `scanSubnetForSSH` (rpi_setup.go lines 329-375) with the per-host
TCP port-22 probe abstracted as an oracle: the enumerated list is cut to
`ips[1:len(ips)-1]` when it has more than two entries and to the empty
list otherwise, and the surviving addresses are probed. -/
def scanSubnetForSSH (reachable : Nat → Bool) (base prefixLen : Nat) : List Nat :=
  let ips := enumerateCidr base prefixLen
  let probed := if 2 < ips.length then (ips.drop 1).dropLast else []
  probed.filter reachable

/-- State of the one `rpiJob` (`rpiGlobal`): the `state` string and the
log lines. -/
structure RpiJobState where
  state : String
  log : List String
  deriving DecidableEq, Repr

inductive RunAdmission where
  | rejected (httpStatus : Nat)
  | started
  deriving DecidableEq, Repr

/-- The single-flight admission step of `rpiRunPostHandler`
(rpi_setup.go lines 188-200), executed under `rpiGlobal.mu`: a job whose
state is already `"Running"` is rejected with HTTP 409 and left
untouched; otherwise the state becomes `"Running"` and the log is
reseeded with the start line. -/
def rpiAdmitRun (j : RpiJobState) (seedLine : String) : RunAdmission × RpiJobState :=
  if j.state = "Running" then (.rejected 409, j)
  else (.started, { state := "Running", log := [seedLine] })

/-- The defaulting of the `host` form field (rpi_setup.go lines 123 and
146-148): the trimmed form value, or `"10.0.100.199"` when that is
empty. -/
def resolveHostField (hostRaw : String) : String :=
  let h := strTrim hostRaw
  if h = "" then "10.0.100.199" else h

/-- The gateway-likeness test of the scan branch (line 227). -/
def isGatewayLike (ip : String) : Bool :=
  strEndsWith ip ".1" || strEndsWith ip ".254"

/-- The scan-branch post-processing (rpi_setup.go lines 224-233):
responders whose address ends in `".1"` or `".254"` are moved after the
rest, preserving order within each group. -/
def deprioritizeGateways (found : List String) : List String :=
  let parts := found.partition fun ip => !(isGatewayLike ip)
  parts.1 ++ parts.2

/-- Target resolution inside the provisioning goroutine (rpi_setup.go
lines 210-235), as a function of the defaulted form host field and of the
responders a subnet scan would return. -/
def rpiResolveTargets (hostRaw : String) (scanFound : List String) : List String :=
  let host := resolveHostField hostRaw
  if host ≠ "" then [host] else deprioritizeGateways scanFound

/-! ## Theorems -/

example : (ngRun ngInit [(true, 0), (true, 1), (true, 2)]).status = "ACTIVE" := by decide

example : (ngRun ngInit [(true, 0), (true, 1)]).status = "UNKNOWN" := by decide

example :
    (ngRun ngInit [(false, 0), (false, 1), (false, 2), (false, 3), (false, 4)]).status
      = "ERROR" := by decide

example :
    (ngRun { ngInit with lastRebootAt := some 0 }
      [(false, 1), (false, 2), (false, 3), (false, 4), (false, 5)]).status
      = "CONFIGURING" := by decide

example : (tpRun tpInit [(true, 0)]).status = "ACTIVE" := by decide

theorem ngInGrace_eq (s : NetgearState) (now : Nat) :
    ngInGrace s now = inGraceAt s.lastRebootAt s.rebootGrace now := by
  cases h : s.lastRebootAt <;> simp [ngInGrace, inGraceAt, h]

theorem leading_prefix (v : Bool) (l : List (Bool × Nat)) :
    ∃ w rest, l = w ++ rest ∧ w.length = leadingCount v l ∧ ∀ x ∈ w, x.1 = v := by
  induction l with
  | nil => exact ⟨[], [], rfl, rfl, by simp⟩
  | cons x rest ih =>
    obtain ⟨w, r, heq, hlen, hall⟩ := ih
    by_cases h : x.1 = v
    · refine ⟨x :: w, r, by simp [heq], by simp [leadingCount, h, hlen], ?_⟩
      intro y hy
      rcases List.mem_cons.mp hy with hy | hy
      · subst hy; exact h
      · exact hall y hy
    · exact ⟨[], x :: rest, rfl, by simp [leadingCount, h], by simp⟩

theorem trailing_suffix (v : Bool) (l : List (Bool × Nat)) :
    ∃ l1 w, l = l1 ++ w ∧ w.length = trailingCount v l ∧ ∀ x ∈ w, x.1 = v := by
  obtain ⟨w, r, heq, hlen, hall⟩ := leading_prefix v l.reverse
  refine ⟨r.reverse, w.reverse, ?_, ?_, ?_⟩
  · have := congrArg List.reverse heq
    simpa using this
  · simpa [trailingCount] using hlen
  · intro x hx
    exact hall x (List.mem_reverse.mp hx)

theorem trailingCount_append_single (v : Bool) (p : List (Bool × Nat)) (x : Bool × Nat) :
    trailingCount v (p ++ [x]) = if x.1 = v then trailingCount v p + 1 else 0 := by
  simp only [trailingCount, List.reverse_append, List.reverse_cons, List.reverse_nil,
    List.nil_append, List.singleton_append, leadingCount]

theorem hasRun_append_right (k : Nat) (v : Bool) (p q : List (Bool × Nat))
    (h : hasRun k v p) : hasRun k v (p ++ q) := by
  obtain ⟨l1, w, l2, heq, hlen, hall⟩ := h
  exact ⟨l1, w, l2 ++ q, by simp [heq], hlen, hall⟩

theorem hasRun_of_trailing (k : Nat) (v : Bool) (l : List (Bool × Nat))
    (h : k ≤ trailingCount v l) : hasRun k v l := by
  obtain ⟨l1, w, heq, hlen, hall⟩ := trailing_suffix v l
  refine ⟨l1, w.take k, w.drop k, ?_, ?_, ?_⟩
  · simp [heq]
  · simp; omega
  · intro x hx; exact hall x (List.mem_of_mem_take hx)

theorem errWitness_append_right (last : Option Nat) (grace : Nat) (p q : List (Bool × Nat))
    (h : errWitness last grace p) : errWitness last grace (p ++ q) := by
  obtain ⟨l1, w, t, l2, heq, hlen, hall, hg⟩ := h
  exact ⟨l1, w, t, l2 ++ q, by simp [heq], hlen, hall, hg⟩

theorem trailing_suffix_of_le (v : Bool) (l : List (Bool × Nat)) (k : Nat)
    (h : k ≤ trailingCount v l) :
    ∃ l1 w, l = l1 ++ w ∧ w.length = k ∧ ∀ x ∈ w, x.1 = v := by
  obtain ⟨l1, w, heq, hlen, hall⟩ := trailing_suffix v l
  refine ⟨l1 ++ w.take (w.length - k), w.drop (w.length - k), ?_, ?_, ?_⟩
  · rw [heq, List.append_assoc, List.take_append_drop]
  · rw [List.length_drop]; omega
  · intro x hx; exact hall x (List.mem_of_mem_drop hx)

/-- Unfolding equation for the reachable branch of
`NetgearPlusSwitch.updateMonitoring`. -/
theorem ngStep_true (s : NetgearState) (t : Nat) :
    ngUpdateMonitoring s true t =
      if needOK ≤ s.consecutiveOK + 1 ∧ s.status ≠ "ACTIVE" then
        { s with consecutiveOK := s.consecutiveOK + 1, consecutiveFail := 0, status := "ACTIVE" }
      else
        { s with consecutiveOK := s.consecutiveOK + 1, consecutiveFail := 0 } := rfl

/-- Unfolding equation for the unreachable branch of
`NetgearPlusSwitch.updateMonitoring`. -/
theorem ngStep_false (s : NetgearState) (t : Nat) :
    ngUpdateMonitoring s false t =
      if inGraceAt s.lastRebootAt s.rebootGrace t then
        { s with consecutiveFail := s.consecutiveFail + 1, consecutiveOK := 0, status := "CONFIGURING" }
      else if needFail ≤ s.consecutiveFail + 1 ∧ s.status ≠ "ERROR" then
        { s with consecutiveFail := s.consecutiveFail + 1, consecutiveOK := 0, status := "ERROR" }
      else
        { s with consecutiveFail := s.consecutiveFail + 1, consecutiveOK := 0 } := rfl

theorem ngStep_inv {last : Option Nat} {grace : Nat} {p : List (Bool × Nat)}
    {s : NetgearState} (b : Bool) (t : Nat) (h : ngTraceInv last grace p s) :
    ngTraceInv last grace (p ++ [(b, t)]) (ngUpdateMonitoring s b t) := by
  obtain ⟨hlast, hgrace, hOK, hF, hA, hE⟩ := h
  have htcT := trailingCount_append_single true p (b, t)
  have htcF := trailingCount_append_single false p (b, t)
  cases b
  case true =>
    simp only [show ((true, t) : Bool × Nat).1 = true from rfl, if_pos, reduceCtorEq,
      if_true, if_false, Bool.true_eq_false] at htcT htcF
    rw [ngStep_true]
    by_cases hc : needOK ≤ s.consecutiveOK + 1 ∧ s.status ≠ "ACTIVE"
    · rw [if_pos hc]
      refine ⟨hlast, hgrace, ?_, ?_, ?_, ?_⟩
      · show s.consecutiveOK + 1 ≤ _
        rw [htcT]; omega
      · show 0 ≤ _
        exact Nat.zero_le _
      · intro _
        exact hasRun_of_trailing _ _ _ (by rw [htcT]; omega)
      · intro hst
        simp at hst
    · rw [if_neg hc]
      refine ⟨hlast, hgrace, ?_, ?_, ?_, ?_⟩
      · show s.consecutiveOK + 1 ≤ _
        rw [htcT]; omega
      · show 0 ≤ _
        exact Nat.zero_le _
      · intro hst
        exact hasRun_append_right _ _ _ _ (hA hst)
      · intro hst
        exact errWitness_append_right _ _ _ _ (hE hst)
  case false =>
    simp only [show ((false, t) : Bool × Nat).1 = false from rfl, if_pos, reduceCtorEq,
      if_true, if_false, Bool.false_eq_true] at htcT htcF
    rw [ngStep_false]
    by_cases hg : inGraceAt s.lastRebootAt s.rebootGrace t
    · rw [if_pos hg]
      refine ⟨hlast, hgrace, ?_, ?_, ?_, ?_⟩
      · show (0 : Nat) ≤ _
        exact Nat.zero_le _
      · show s.consecutiveFail + 1 ≤ _
        rw [htcF]; omega
      · intro hst
        simp at hst
      · intro hst
        simp at hst
    · rw [if_neg hg]
      by_cases he : needFail ≤ s.consecutiveFail + 1 ∧ s.status ≠ "ERROR"
      · rw [if_pos he]
        refine ⟨hlast, hgrace, ?_, ?_, ?_, ?_⟩
        · show (0 : Nat) ≤ _
          exact Nat.zero_le _
        · show s.consecutiveFail + 1 ≤ _
          rw [htcF]; omega
        · intro hst
          simp at hst
        · intro _
          obtain ⟨l1, w, heq, hlen, hall⟩ :=
            trailing_suffix_of_le false p (needFail - 1) (by
              have := he.1
              simp only [needFail] at this ⊢
              omega)
          refine ⟨l1, w, t, [], ?_, hlen, hall, ?_⟩
          · simp [heq]
          · rw [hlast, hgrace] at hg
            simpa using hg
      · rw [if_neg he]
        refine ⟨hlast, hgrace, ?_, ?_, ?_, ?_⟩
        · show (0 : Nat) ≤ _
          exact Nat.zero_le _
        · show s.consecutiveFail + 1 ≤ _
          rw [htcF]; omega
        · intro hst
          exact hasRun_append_right _ _ _ _ (hA hst)
        · intro hst
          exact errWitness_append_right _ _ _ _ (hE hst)

theorem ngRun_inv {last : Option Nat} {grace : Nat} (samples : List (Bool × Nat)) :
    ∀ (p : List (Bool × Nat)) (s : NetgearState), ngTraceInv last grace p s →
      ngTraceInv last grace (p ++ samples) (ngRun s samples) := by
  induction samples with
  | nil => intro p s h; simpa using h
  | cons x rest ih =>
    intro p s h
    obtain ⟨b, t⟩ := x
    have h2 := ih (p ++ [(b, t)]) _ (ngStep_inv b t h)
    simpa using h2

theorem ngRun_status_origin (st : String) (last : Option Nat) (grace : Nat)
    (samples : List (Bool × Nat)) (hA : st ≠ "ACTIVE") (hE : st ≠ "ERROR") :
    ((ngRun ⟨st, last, grace, 0, 0⟩ samples).status = "ACTIVE" →
      hasRun needOK true samples) ∧
    ((ngRun ⟨st, last, grace, 0, 0⟩ samples).status = "ERROR" →
      errWitness last grace samples) := by
  have h0 : ngTraceInv last grace [] ⟨st, last, grace, 0, 0⟩ :=
    ⟨rfl, rfl, Nat.zero_le _, Nat.zero_le _, fun h => absurd h hA, fun h => absurd h hE⟩
  have h := ngRun_inv samples [] _ h0
  rw [List.nil_append] at h
  exact ⟨h.2.2.2.2.1, h.2.2.2.2.2⟩

/-! ## Claim C1 and C2 -/

/-- C1 (corrected, Netgear only): for the Netgear monitor started with
zeroed counters and a status other than `"ACTIVE"`/`"ERROR"`, the status
equals `"ACTIVE"` only after at least `needOK = 3` consecutive successful
probes occurred in the sample sequence, and equals `"ERROR"` only after
at least `needFail = 5` consecutive failed probes whose last (the
ERROR-entering sample) was taken outside the post-reboot grace window.
Moreover a single successful probe amid failures (consecutive-success
counter zero) never changes the published status, and a single failed
probe amid successes (consecutive-failure counter zero) never moves a
non-ERROR status to `"ERROR"` — at most to `"CONFIGURING"` inside the
grace window.  The original claim also asserted this for the TP-Link
monitor, which has no hysteresis; see the counterexample. -/
theorem netgear_monitor_hysteresis :
    (∀ (st : String) (last : Option Nat) (grace : Nat) (samples : List (Bool × Nat)),
      st ≠ "ACTIVE" → st ≠ "ERROR" →
      (((ngRun ⟨st, last, grace, 0, 0⟩ samples).status = "ACTIVE" →
          hasRun needOK true samples) ∧
       ((ngRun ⟨st, last, grace, 0, 0⟩ samples).status = "ERROR" →
          errWitness last grace samples))) ∧
    (∀ (s : NetgearState) (now : Nat), s.consecutiveOK = 0 →
      (ngUpdateMonitoring s true now).status = s.status) ∧
    (∀ (s : NetgearState) (now : Nat), s.consecutiveFail = 0 → s.status ≠ "ERROR" →
      (ngUpdateMonitoring s false now).status = s.status ∨
      (ngUpdateMonitoring s false now).status = "CONFIGURING") := by
  refine ⟨fun st last grace samples hA hE => ngRun_status_origin st last grace samples hA hE,
    ?_, ?_⟩
  · intro s now h0
    have hnc : ¬(needOK ≤ s.consecutiveOK + 1 ∧ s.status ≠ "ACTIVE") := by
      rintro ⟨h1, -⟩
      rw [h0] at h1
      norm_num [needOK] at h1
    rw [ngStep_true, if_neg hnc]
  · intro s now h0 hne
    rw [ngStep_false]
    by_cases hg : inGraceAt s.lastRebootAt s.rebootGrace now
    · rw [if_pos hg]
      right
      rfl
    · have hnc : ¬(needFail ≤ s.consecutiveFail + 1 ∧ s.status ≠ "ERROR") := by
        rintro ⟨h1, -⟩
        rw [h0] at h1
        norm_num [needFail] at h1
      rw [if_neg hg, if_neg hnc]
      left
      rfl

/-- C1 witness: a Netgear run of three straight successes from
`"UNKNOWN"` ends `"ACTIVE"`, and the theorem yields the run of three
consecutive successes in the sample sequence. -/
theorem netgear_monitor_hysteresis_witness :
    hasRun needOK true [(true, 0), (true, 1), (true, 2)] :=
  (netgear_monitor_hysteresis.1 "UNKNOWN" none defaultGrace
    [(true, 0), (true, 1), (true, 2)] (by decide) (by decide)).1 (by decide)

/-- C1 counterexample: the TP-Link monitor, started from its initial
state, publishes `"ACTIVE"` after a single successful probe, although the
sample sequence contains no run of three consecutive successes — so the
claim is false for the TP-Link driver family. -/
theorem tplink_single_sample_sets_active :
    (tpRun tpInit [(true, 0)]).status = "ACTIVE" ∧ ¬ hasRun needOK true [(true, 0)] := by
  refine ⟨by decide, ?_⟩
  rintro ⟨l1, w, l2, heq, hlen, -⟩
  have hlng := congrArg List.length heq
  simp [List.length_append, hlen, needOK] at hlng
  omega

/-- C2 (confirmed): inside the post-reboot grace window an unreachable
probe forces status `"CONFIGURING"` (never `"ERROR"`) in both drivers,
regardless of the consecutive-failure counter, and no monitor step taken
inside the grace window moves a non-ERROR status to `"ERROR"`. -/
theorem grace_window_forces_configuring :
    (∀ (s : NetgearState) (t now : Nat), s.lastRebootAt = some t →
      now - t < s.rebootGrace →
      (ngUpdateMonitoring s false now).status = "CONFIGURING") ∧
    (∀ (s : NetgearState) (b : Bool) (t now : Nat), s.lastRebootAt = some t →
      now - t < s.rebootGrace → s.status ≠ "ERROR" →
      (ngUpdateMonitoring s b now).status ≠ "ERROR") ∧
    (∀ (s : TPLinkState) (t now : Nat), s.lastRebootAt = some t →
      now - t < s.rebootGrace →
      (tpUpdateMonitoring s false now).status = "CONFIGURING") ∧
    (∀ (s : TPLinkState) (b : Bool) (t now : Nat), s.lastRebootAt = some t →
      now - t < s.rebootGrace → s.status ≠ "ERROR" →
      (tpUpdateMonitoring s b now).status ≠ "ERROR") := by
  have hgNg : ∀ (s : NetgearState) (t now : Nat), s.lastRebootAt = some t →
      now - t < s.rebootGrace → inGraceAt s.lastRebootAt s.rebootGrace now = true := by
    intro s t now hlast hlt
    simp [inGraceAt, hlast, hlt]
  have hgTp : ∀ (s : TPLinkState) (t now : Nat), s.lastRebootAt = some t →
      now - t < s.rebootGrace → tpInGrace s now = true := by
    intro s t now hlast hlt
    simp [tpInGrace, hlast, hlt]
  refine ⟨?_, ?_, ?_, ?_⟩
  · intro s t now hlast hlt
    rw [ngStep_false, if_pos (hgNg s t now hlast hlt)]
  · intro s b t now hlast hlt hne
    cases b
    · rw [ngStep_false, if_pos (hgNg s t now hlast hlt)]
      simp
    · rw [ngStep_true]
      split
      · simp
      · exact hne
  · intro s t now hlast hlt
    simp only [tpUpdateMonitoring, Bool.false_eq_true, if_false, hgTp s t now hlast hlt, if_true]
  · intro s b t now hlast hlt hne
    cases b
    · simp only [tpUpdateMonitoring, Bool.false_eq_true, if_false,
        hgTp s t now hlast hlt, if_true]
      simp
    · simp only [tpUpdateMonitoring, if_true]
      simp

/-- C2 witness: a device rebooted at time 10 with grace 30 and a large
failure count still reports `"CONFIGURING"` on an unreachable probe at
time 20. -/
theorem grace_window_forces_configuring_witness :
    (ngUpdateMonitoring
      { status := "ACTIVE", lastRebootAt := some 10, rebootGrace := defaultGrace,
        consecutiveOK := 0, consecutiveFail := 99 } false 20).status = "CONFIGURING" :=
  grace_window_forces_configuring.1 _ 10 20 rfl (by decide)

/-! ## Claim C6 and C9 -/

/-- C6 (corrected, Netgear only): the Netgear reboot path classifies a
post-request connection-reset or timeout transport error as success, and
a follow-up reachability probe reporting "now unreachable" also counts
as confirmation (both for a non-2xx/3xx response and for any error
propagated out of the POST helper).  The TP-Link reboot POST, by
contrast, propagates every transport error as a failure; see the
counterexample. -/
theorem reboot_error_classified_success :
    (∀ (e : GoError) (p q : Bool),
      looksLikeConnectionDrop e = true ∨ looksLikeTimeout e = true →
      ngRebootClassify (.transportErr e) p q = none) ∧
    (∀ (st : Nat) (q : Bool), ngRebootClassify (.response st) false q = none) ∧
    (∀ (outcome : HttpOutcome) (p : Bool), ngRebootClassify outcome p false = none) ∧
    (∀ (e : GoError), performReboot (.transportErr e) = some e) := by
  refine ⟨?_, ?_, ?_, fun e => rfl⟩
  · intro e p q h
    rcases h with h | h <;>
      simp [ngRebootClassify, postRebootConsiderRebooting, h]
  · intro st q
    have h : postRebootConsiderRebooting (.response st) false = none := by
      simp only [postRebootConsiderRebooting, Bool.not_false, if_true]
      split <;> rfl
    simp [ngRebootClassify, h]
  · intro outcome p
    cases hc : postRebootConsiderRebooting outcome p with
    | none => simp [ngRebootClassify, hc]
    | some e => simp [ngRebootClassify, hc]

/-- C6 witness: a concrete connection-reset error after the Netgear
reboot POST is classified as success even though both probes still
answer. -/
theorem reboot_error_classified_success_witness :
    ngRebootClassify
      (.transportErr { msg := "read tcp 10.0.100.5: connection reset by peer", isEOF := false })
      true true = none :=
  reboot_error_classified_success.1 _ true true (Or.inl (by decide))

/-- C6 counterexample: the same connection-reset transport error makes
the TP-Link `performReboot` fail, so the claim does not hold for every
driver family. -/
theorem tplink_reboot_drop_is_failure :
    looksLikeConnectionDrop
        { msg := "read tcp 10.0.100.9: connection reset by peer", isEOF := false } = true ∧
    performReboot
        (.transportErr { msg := "read tcp 10.0.100.9: connection reset by peer", isEOF := false })
      ≠ none := by
  exact ⟨by decide, by decide⟩

/-- C9 (corrected): a successful Netgear reboot stamps `lastRebootAt`
with the request time and forces status `"CONFIGURING"`, and a failed
Netgear reboot leaves `lastRebootAt` unchanged (setting `"ERROR"`).  A
successful TP-Link reboot stamps `lastRebootAt` but leaves the published
status untouched (it becomes `"CONFIGURING"` only via the next
monitoring step inside the grace window), and a failed TP-Link reboot
changes nothing. -/
theorem reboot_updates_lastRebootAt :
    (∀ (s : NetgearState) (now : Nat),
      (ngReboot s .ok now).lastRebootAt = some now ∧
      (ngReboot s .ok now).status = "CONFIGURING") ∧
    (∀ (s : NetgearState) (a : NgRebootAttempt) (now : Nat), a ≠ .ok →
      (ngReboot s a now).lastRebootAt = s.lastRebootAt ∧
      (ngReboot s a now).status = "ERROR") ∧
    (∀ (s : TPLinkState) (now : Nat),
      (tpReboot s true now).lastRebootAt = some now ∧
      (tpReboot s true now).status = s.status) ∧
    (∀ (s : TPLinkState) (now : Nat), tpReboot s false now = s) := by
  refine ⟨fun s now => ⟨rfl, rfl⟩, ?_, fun s now => ⟨rfl, rfl⟩, fun s now => rfl⟩
  intro s a now ha
  cases a
  · exact ⟨rfl, rfl⟩
  · exact ⟨rfl, rfl⟩
  · exact absurd rfl ha

/-- C9 witness: a failed Netgear reboot attempt at time 9 keeps the old
`lastRebootAt` stamp of 3 and reports `"ERROR"`. -/
theorem reboot_updates_lastRebootAt_witness :
    (ngReboot
      { status := "ACTIVE", lastRebootAt := some 3, rebootGrace := defaultGrace,
        consecutiveOK := 5, consecutiveFail := 0 } .loginOrRebootErr 9).lastRebootAt = some 3 ∧
    (ngReboot
      { status := "ACTIVE", lastRebootAt := some 3, rebootGrace := defaultGrace,
        consecutiveOK := 5, consecutiveFail := 0 } .loginOrRebootErr 9).status = "ERROR" :=
  reboot_updates_lastRebootAt.2.1 _ .loginOrRebootErr 9 (by decide)

/-- C9 counterexample: a successful TP-Link reboot from status
`"ACTIVE"` leaves the published status `"ACTIVE"` rather than forcing
`"CONFIGURING"`. -/
theorem tplink_reboot_does_not_force_configuring :
    (tpReboot { status := "ACTIVE", lastRebootAt := none, rebootGrace := 40 } true 5).status
        = "ACTIVE" ∧
    (tpReboot { status := "ACTIVE", lastRebootAt := none, rebootGrace := 40 } true 5).status
        ≠ "CONFIGURING" :=
  ⟨rfl, by decide⟩

theorem mergeRunes_nil_right (a : List Char) : mergeRunes a [] = a := by
  induction a with
  | nil => rfl
  | cons x xs ih => simp [mergeRunes, ih]

theorem mergeRunes_nil_left (b : List Char) : mergeRunes [] b = b := rfl

theorem mergeRunes_eq_specInterleave (a : List Char) :
    ∀ b, mergeRunes a b = specInterleave a b := by
  induction a with
  | nil =>
    intro b
    simp [mergeRunes_nil_left, specInterleave]
  | cons x xs ih =>
    intro b
    cases b with
    | nil => simp [specInterleave, mergeRunes_nil_right]
    | cons y ys => simp [mergeRunes, specInterleave, ih ys]

theorem mergeRunes_length (a : List Char) :
    ∀ b, (mergeRunes a b).length = a.length + b.length := by
  induction a with
  | nil => intro b; simp [mergeRunes_nil_left]
  | cons x xs ih =>
    intro b
    cases b with
    | nil => simp [mergeRunes_nil_right]
    | cons y ys =>
      simp [mergeRunes, ih ys]
      omega

set_option maxRecDepth 100000 in
theorem md5hex_empty_vector : md5hex "" = "d41d8cd98f00b204e9800998ecf8427e" := by decide

set_option maxRecDepth 100000 in
theorem md5hex_abc_vector : md5hex "abc" = "900150983cd24fb0d6963f7d28e17f72" := by decide

/-- C8 (confirmed): the credential the Netgear driver POSTs to the login
endpoint equals the MD5 hex digest of the character-interleaved merge of
the plaintext password with the server-issued nonce; the merge alternates
one character of the password with one character of the nonce and appends
the remainder of the longer string, so merging with the empty nonce is
the identity and the merged length is the sum of the two lengths. -/
theorem login_credential_is_md5_of_interleave :
    (∀ (p r : String),
      loginCredential p r = md5hex (String.mk (specInterleave p.data r.data))) ∧
    (∀ (a : String), mergeStrings a "" = a) ∧
    (∀ (a b : String), (mergeStrings a b).length = a.length + b.length) := by
  refine ⟨?_, ?_, ?_⟩
  · intro p r
    unfold loginCredential mergeStrings
    rw [mergeRunes_eq_specInterleave]
  · intro a
    unfold mergeStrings
    rw [show ("" : String).data = [] from rfl, mergeRunes_nil_right]
  · intro a b
    unfold mergeStrings
    show (mergeRunes a.data b.data).length = _
    rw [mergeRunes_length]
    rfl

/-- Helper: the update phase always records the upper-cased station and
answers the success JSON when the update oracle reports no error. -/
theorem stationStopsUpdatePhase_spec (req : StationStopRequest) (stationId : String)
    (updateErr : String → Bool → Bool → Option String) :
    (stationStopsUpdatePhase req stationId updateErr).updateCalled
        = some (strToUpper stationId, req.eStop, req.aStop) ∧
    (updateErr (strToUpper stationId) req.eStop req.aStop = none →
      (stationStopsUpdatePhase req stationId updateErr).outcome = .successJson) := by
  cases hup : updateErr (strToUpper stationId) req.eStop req.aStop <;>
    simp [stationStopsUpdatePhase, hup]

/-- C3 (corrected): a disabled feature answers 503 with no state update;
a malformed body answers 400 with no update; with a non-empty configured
secret, a caller secret that is empty after trimming answers 403 with no
update, and a trimmed caller secret differing from the configured secret
answers 403 with no update; only a request passing all checks reaches the
state update (with the upper-cased station id) and answers the success
JSON when the update succeeds.  The handler compares the trimmed caller
secret, not the exact caller secret — see the counterexample. -/
theorem station_stops_checks :
    (∀ body stationId updateErr,
      stationStopsApiHandler none body stationId updateErr
        = ⟨.httpError 503, none⟩) ∧
    (∀ (es : EventSettings) body stationId updateErr, es.useStationRpiStops = false →
      stationStopsApiHandler (some es) body stationId updateErr
        = ⟨.httpError 503, none⟩) ∧
    (∀ (es : EventSettings) stationId updateErr, es.useStationRpiStops = true →
      stationStopsApiHandler (some es) none stationId updateErr
        = ⟨.httpError 400, none⟩) ∧
    (∀ (es : EventSettings) req stationId updateErr, es.useStationRpiStops = true →
      es.stationRpiSecret ≠ "" → strTrim req.secret = "" →
      stationStopsApiHandler (some es) (some req) stationId updateErr
        = ⟨.httpError 403, none⟩) ∧
    (∀ (es : EventSettings) req stationId updateErr, es.useStationRpiStops = true →
      es.stationRpiSecret ≠ "" → strTrim req.secret ≠ es.stationRpiSecret →
      stationStopsApiHandler (some es) (some req) stationId updateErr
        = ⟨.httpError 403, none⟩) ∧
    (∀ (es : EventSettings) req stationId updateErr, es.useStationRpiStops = true →
      (es.stationRpiSecret = "" ∨ strTrim req.secret = es.stationRpiSecret) →
      (stationStopsApiHandler (some es) (some req) stationId updateErr).updateCalled
          = some (strToUpper stationId, req.eStop, req.aStop) ∧
      (updateErr (strToUpper stationId) req.eStop req.aStop = none →
        (stationStopsApiHandler (some es) (some req) stationId updateErr).outcome
          = .successJson)) := by
  refine ⟨fun body stationId updateErr => rfl, ?_, ?_, ?_, ?_, ?_⟩
  · intro es body stationId updateErr hu
    simp [stationStopsApiHandler, hu]
  · intro es stationId updateErr hu
    simp [stationStopsApiHandler, hu]
  · intro es req stationId updateErr hu hcfg htrim
    simp [stationStopsApiHandler, hu, hcfg, htrim]
  · intro es req stationId updateErr hu hcfg hne
    by_cases hempty : strTrim req.secret = ""
    · simp [stationStopsApiHandler, hu, hcfg, hempty]
    · simp [stationStopsApiHandler, hu, hcfg, hempty, hne]
  · intro es req stationId updateErr hu hok
    have hred : stationStopsApiHandler (some es) (some req) stationId updateErr
        = stationStopsUpdatePhase req stationId updateErr := by
      rcases hok with hcfg0 | ht
      · simp [stationStopsApiHandler, hu, hcfg0]
      · by_cases hcfg0 : es.stationRpiSecret = ""
        · simp [stationStopsApiHandler, hu, hcfg0]
        · have hne0 : strTrim req.secret ≠ "" := by rw [ht]; exact hcfg0
          simp [stationStopsApiHandler, hu, hcfg0, ht]
    rw [hred]
    exact stationStopsUpdatePhase_spec req stationId updateErr

/-- C3 witness: with configured secret `"s"`, an all-whitespace caller
secret is rejected with 403 and the station state is not touched. -/
theorem station_stops_checks_witness :
    stationStopsApiHandler (some ⟨true, "s"⟩) (some ⟨false, false, "  "⟩) "r1"
      (fun _ _ _ => none) = ⟨.httpError 403, none⟩ :=
  station_stops_checks.2.2.2.1 ⟨true, "s"⟩ ⟨false, false, "  "⟩ "r1" (fun _ _ _ => none)
    rfl (by decide) rfl

/-- C3 counterexample: with configured secret `"s"`, the caller secret
`" s"` does not exactly equal the configured secret, yet the report is
accepted and the state update runs, because the handler trims the
caller's secret before comparing. -/
theorem station_stops_secret_trimmed :
    (stationStopsApiHandler (some ⟨true, "s"⟩) (some ⟨true, false, " s"⟩) "r1"
      (fun _ _ _ => none)).outcome = .successJson ∧
    (" s" : String) ≠ "s" :=
  ⟨rfl, by decide⟩

/-- C4 (code bug): `parseMaskToCIDR` maps both `"255.255.255.0"` and
`"24"` to CIDR length 24 as claimed, and its non-contiguity check fires
for a gap inside a byte (`"255.160.0.0"`); but the Go `break` leaves
only the inner per-byte bit loop, so the cross-byte non-contiguous mask
`"255.0.255.0"` is accepted with result 16 instead of being rejected. -/
theorem parseMaskToCIDR_eval :
    parseMaskToCIDR "255.255.255.0" = .ok 24 ∧
    parseMaskToCIDR "24" = .ok 24 ∧
    parseMaskToCIDR "255.0.255.0" = .ok 16 ∧
    parseMaskToCIDR "255.160.0.0" = .error "non-contiguous netmask" :=
  ⟨rfl, rfl, rfl, rfl⟩

/-- C5 (confirmed): a Run request arriving while the job is `"Running"`
is rejected with HTTP 409 and leaves the job state and log unchanged,
and a request is marked started (state set to `"Running"`) only when it
observed the state not `"Running"` — the admission step runs under the
job mutex, so at most one run of the job class is in flight at a
time. -/
theorem single_flight_admission :
    (∀ (j : RpiJobState) (seed : String), j.state = "Running" →
      rpiAdmitRun j seed = (.rejected 409, j)) ∧
    (∀ (j : RpiJobState) (seed : String), (rpiAdmitRun j seed).1 = .started →
      j.state ≠ "Running" ∧ (rpiAdmitRun j seed).2.state = "Running") := by
  constructor
  · intro j seed h
    simp [rpiAdmitRun, h]
  · intro j seed h
    by_cases hr : j.state = "Running"
    · simp [rpiAdmitRun, hr] at h
    · refine ⟨hr, ?_⟩
      simp [rpiAdmitRun, hr]

/-- C5 witness: a second Run while the job is Running yields the 409
conflict and the untouched job. -/
theorem single_flight_admission_witness :
    rpiAdmitRun ⟨"Running", ["Starting..."]⟩ "seed"
      = (.rejected 409, ⟨"Running", ["Starting..."]⟩) :=
  single_flight_admission.1 ⟨"Running", ["Starting..."]⟩ "seed" rfl

/-- C7 (corrected): the resolved target list is always exactly the
single defaulted host — after defaulting, the host field is never empty,
so the subnet-scan branch is unreachable; in that (dead) branch,
responders ending in `".1"` or `".254"` would be moved to the end of the
candidate list, preserving the relative order of each group. -/
theorem rpi_targets_single_host :
    (∀ (hostRaw : String) (scanFound : List String),
      rpiResolveTargets hostRaw scanFound = [resolveHostField hostRaw]) ∧
    (∀ hostRaw : String, resolveHostField hostRaw ≠ "") ∧
    (∀ found : List String,
      deprioritizeGateways found =
        (found.filter fun ip => !(isGatewayLike ip)) ++ found.filter isGatewayLike) := by
  have hne : ∀ hostRaw : String, resolveHostField hostRaw ≠ "" := by
    intro hostRaw
    unfold resolveHostField
    by_cases h : strTrim hostRaw = ""
    · rw [if_pos h]
      decide
    · rw [if_neg h]
      exact h
  refine ⟨?_, hne, ?_⟩
  · intro hostRaw scanFound
    simp only [rpiResolveTargets]
    rw [if_pos (hne hostRaw)]
  · intro found
    have hfun : (not ∘ fun ip : String => !isGatewayLike ip) = isGatewayLike := by
      funext ip
      simp [Function.comp]
    simp [deprioritizeGateways, List.partition_eq_filter_filter, hfun]

/-- C7 counterexample: with no host given and a subnet scan that would
find the responder 10.0.100.7, the target list is the defaulted host
10.0.100.199 — not the scan responders, as the claim's otherwise-branch
requires. -/
theorem rpi_no_host_not_scanned :
    rpiResolveTargets "" ["10.0.100.7"] = ["10.0.100.199"] ∧
    deprioritizeGateways ["10.0.100.7"] = ["10.0.100.7"] ∧
    (["10.0.100.199"] : List String) ≠ ["10.0.100.7"] := by
  exact ⟨rfl, by decide, by decide⟩

/-- C10 (confirmed): for a network of prefix length 31 or 32 the
enumerated address list has at most two entries, so the truncation
`ips[1:len(ips)-1]` empties it: no host is probed and the scan returns
an empty candidate list with no error. -/
theorem small_subnet_scan_empty :
    ∀ (reachable : Nat → Bool) (base prefixLen : Nat), 31 ≤ prefixLen → prefixLen ≤ 32 →
      (enumerateCidr base prefixLen).length ≤ 2 ∧
      scanSubnetForSSH reachable base prefixLen = [] := by
  intro reachable base p h1 h2
  have hlen : (enumerateCidr base p).length = 2 ^ (32 - p) := by
    simp [enumerateCidr]
  have hle : (enumerateCidr base p).length ≤ 2 := by
    rw [hlen]
    have hp : 32 - p = 0 ∨ 32 - p = 1 := by omega
    rcases hp with hp | hp <;> rw [hp] <;> norm_num
  refine ⟨hle, ?_⟩
  have hnot : ¬ 2 < (enumerateCidr base p).length := by omega
  simp [scanSubnetForSSH, hnot]

/-- C10 witness: scanning 10.0.100.0/31 (base 167864320) probes nothing
and returns no candidates even when every host would answer. -/
theorem small_subnet_scan_empty_witness :
    scanSubnetForSSH (fun _ => true) 167864320 31 = [] :=
  (small_subnet_scan_empty (fun _ => true) 167864320 31 (by decide) (by decide)).2

end CheesyArena
